import Mathlib

/-!
Verification development for the telemetry-session fragment
(`src/core/telemetry_session.cpp`): the anonymous-identifier store,
the field collection populated by `TelemetrySession`'s constructor and
destructor, backend selection, and login verification.

File I/O is modelled explicitly: the single `telemetry_id` file is a
`FileState` (its byte content, or absent), and each `IOFile` open is
resolved by an `IOEnv` flag saying whether the open succeeds — exactly
the two failure points checked by `IsOpen()` in the source.
-/

namespace Telemetry

/-- Little-endian byte decoding, as `ReadBytes(&telemetry_id, sizeof(u64))`
reassembles a `u64` from the file's bytes on a little-endian host.
The head of the list is the least significant byte. -/
def bytesToU64 (bs : List Nat) : Nat :=
  bs.foldr (fun b acc => b + 256 * acc) 0

/-- `n` little-endian bytes of `x`, as `WriteBytes(&id, sizeof(u64))`
lays a `u64` out in memory on a little-endian host. -/
def natToBytesLE : Nat → Nat → List Nat
  | 0, _ => []
  | n + 1, x => (x % 256) :: natToBytesLE n (x / 256)

/-- The exactly-8-byte record format of the identifier file. -/
def u64ToBytes (x : Nat) : List Nat :=
  natToBytesLE 8 x

/-- Content of the `telemetry_id` file: absent, or its byte list. -/
structure FileState where
  telemetryFile : Option (List Nat)
  deriving DecidableEq

/-- Environment for one identifier-store call: whether an `IOFile`
open for reading ("rb") and for writing ("wb") would succeed. -/
structure IOEnv where
  openReadOk : Bool
  openWriteOk : Bool
  deriving DecidableEq

/-- Result of one identifier-store call: the returned `u64`, the file
state afterwards, and whether `LOG_ERROR` fired. -/
structure IdResult where
  value : Nat
  fs : FileState
  loggedError : Bool
  deriving DecidableEq

/-- `GenerateTelemetryId` (telemetry_session.cpp:29-32): value-initialises
a `u64` and returns it — the placeholder generator, always zero. -/
def generateTelemetryId : Nat := 0

/-- The write path shared by `GetTelemetryId`'s absent-file branch and
`RegenerateTelemetryId` (telemetry_session.cpp:46-52, 62-68): open the
file "wb"; on failure log and return 0 leaving the file untouched; on
success write `id` as exactly 8 raw bytes and return it. -/
def writeIdFile (id : Nat) (env : IOEnv) (fs : FileState) : IdResult :=
  if env.openWriteOk then
    { value := id, fs := ⟨some (u64ToBytes id)⟩, loggedError := false }
  else
    { value := 0, fs := fs, loggedError := true }

/-- `GetTelemetryId` (telemetry_session.cpp:34-56): if the file exists,
open "rb" (on failure log and return 0) and read up to 8 bytes into a
zero-initialised `u64`; otherwise generate a fresh id and persist it
via the write path. -/
def getTelemetryId (env : IOEnv) (fs : FileState) : IdResult :=
  match fs.telemetryFile with
  | some bytes =>
    if env.openReadOk then
      { value := bytesToU64 (bytes.take 8), fs := fs, loggedError := false }
    else
      { value := 0, fs := fs, loggedError := true }
  | none =>
    writeIdFile generateTelemetryId env fs

/-- `RegenerateTelemetryId` (telemetry_session.cpp:58-69): generate a new
id unconditionally and persist it via the write path. -/
def regenerateTelemetryId (env : IOEnv) (fs : FileState) : IdResult :=
  writeIdFile generateTelemetryId env fs

theorem bytesToU64_natToBytesLE (n : Nat) : ∀ x, bytesToU64 (natToBytesLE n x) = x % 256 ^ n := by
  induction n with
  | zero => intro x; simp [natToBytesLE, bytesToU64, Nat.mod_one]
  | succ n ih =>
    intro x
    simp only [natToBytesLE, bytesToU64, List.foldr] at *
    rw [ih (x / 256)]
    rw [pow_succ, Nat.mul_comm (256 ^ n) 256, Nat.mod_mul]

theorem length_natToBytesLE (n x : Nat) : (natToBytesLE n x).length = n := by
  induction n generalizing x with
  | zero => simp [natToBytesLE]
  | succ n ih => simp [natToBytesLE, ih]

theorem bytesToU64_u64ToBytes (x : Nat) (hx : x < 2 ^ 64) : bytesToU64 (u64ToBytes x) = x := by
  have h : (256 : Nat) ^ 8 = 2 ^ 64 := by norm_num
  rw [u64ToBytes, bytesToU64_natToBytesLE, h, Nat.mod_eq_of_lt hx]

/-- `Telemetry::FieldType` categories used by the session. -/
inductive FieldType where
  | none
  | session
  | app
  | userSystem
  | userConfig
  deriving DecidableEq

/-- The value kinds `AddField` is called with in this translation unit:
booleans, integers (`u64`/`s64`/`int`), strings, and one float
(`resolution_factor`). Float bits are carried opaquely, never computed on. -/
inductive FieldValue where
  | fBool (b : Bool)
  | fInt (i : Int)
  | fFloat (bits : Nat)
  | fStr (s : String)
  deriving DecidableEq

/-- One diagnostic field as appended by `AddField`. -/
structure Field where
  type : FieldType
  name : String
  value : FieldValue
  deriving DecidableEq

/-- `Common::CPUVendor`. -/
inductive CPUVendor where
  | intel
  | amd
  | other
  deriving DecidableEq

/-- `CpuVendorToStr` (telemetry_session.cpp:17-27). -/
def cpuVendorToStr : CPUVendor → String
  | .intel => "Intel"
  | .amd => "Amd"
  | .other => "Other"

/-- The slice of `Common::GetCPUCaps()` the session reads. -/
structure CPUCaps where
  cpu_string : String
  brand_string : String
  vendor : CPUVendor
  aes : Bool
  avx : Bool
  avx2 : Bool
  bmi1 : Bool
  bmi2 : Bool
  fma : Bool
  fma4 : Bool
  sse : Bool
  sse2 : Bool
  sse3 : Bool
  ssse3 : Bool
  sse4_1 : Bool
  sse4_2 : Bool

/-- The slice of `Settings::values` the session reads. -/
structure SettingsValues where
  enable_telemetry : Bool
  telemetry_endpoint_url : String
  verify_endpoint_url : String
  citra_username : String
  citra_token : String
  cpu_core : Int
  resolution_factor : Nat
  toggle_framelimit : Bool

/-- The `Common::g_scm_*` build-metadata strings the session reads. -/
structure ScmRev where
  g_scm_desc : String
  g_scm_branch : String
  g_scm_rev : String
  g_build_date : String
  g_build_name : String

/-- Compilation platform, deciding the `OsPlatform` preprocessor branch
(telemetry_session.cpp:138-146). -/
inductive OsPlatform where
  | apple
  | windows
  | linux
  | unknown
  deriving DecidableEq

/-- The `OsPlatform` string each preprocessor branch adds. -/
def osPlatformStr : OsPlatform → String
  | .apple => "Apple"
  | .windows => "Windows"
  | .linux => "Linux"
  | .unknown => "Unknown"

/-- The backend variant held in `TelemetrySession::backend`. -/
inductive Backend where
  | nullVisitor
  | telemetryJson (endpoint username token : String)
  deriving DecidableEq

/-- Everything outside the session that its constructor and destructor
read: compile-time capability, configuration, build metadata, CPU caps,
platform, loader reply, the two clock samples, and the I/O environment
for the embedded `GetTelemetryId` call. -/
structure SessionEnv where
  webService : Bool
  settings : SettingsValues
  scm : ScmRev
  caps : CPUCaps
  platform : OsPlatform
  loaderOk : Bool
  loaderName : String
  initTime : Int
  shutdownTime : Int
  idEnv : IOEnv

/-- A constructed session: its field collection (insertion order), its
backend, and the file state after the embedded `GetTelemetryId`. -/
structure TelemetrySession where
  field_collection : List Field
  backend : Backend
  fs : FileState

/-- Backend selection at construction (telemetry_session.cpp:83-93):
`TelemetryJson` only when web service is compiled in and telemetry is
enabled; `NullVisitor` otherwise. -/
def selectBackend (webService : Bool) (s : SettingsValues) : Backend :=
  if webService then
    if s.enable_telemetry then
      .telemetryJson s.telemetry_endpoint_url s.citra_username s.citra_token
    else
      .nullVisitor
  else
    .nullVisitor

/-- `std::strstr(haystack, needle) != nullptr`: does `needle` start at
the head of `hay`? Helper for the occurrence scan. -/
def leadsChars : List Char → List Char → Bool
  | [], _ => true
  | _ :: _, [] => false
  | a :: as, b :: bs => a == b && leadsChars as bs

/-- Scan of `hay` for an occurrence of `needle` at any position, the
observable boolean of `std::strstr`. -/
def hasSubChars (needle : List Char) : List Char → Bool
  | [] => leadsChars needle []
  | c :: rest => leadsChars needle (c :: rest) || hasSubChars needle rest

/-- `std::strstr(hay, needle) != nullptr` on strings. -/
def strstrFound (hay needle : String) : Bool :=
  hasSubChars needle.data hay.data

/-- `TelemetrySession::TelemetrySession` (telemetry_session.cpp:82-155):
select the backend, then append every field in source order. The
`ProgramName` field is appended only when `ReadTitle` reported
`Success`; `OsPlatform` follows the compilation platform. -/
def constructSession (e : SessionEnv) (fs₀ : FileState) : TelemetrySession :=
  let idr := getTelemetryId e.idEnv fs₀
  { backend := selectBackend e.webService e.settings
    fs := idr.fs
    field_collection :=
      [⟨.none, "TelemetryId", .fInt idr.value⟩,
       ⟨.session, "Init_Time", .fInt e.initTime⟩] ++
      (if e.loaderOk then [⟨.session, "ProgramName", .fStr e.loaderName⟩] else []) ++
      [⟨.app, "Git_IsDirty", .fBool (strstrFound e.scm.g_scm_desc "dirty")⟩,
       ⟨.app, "Git_Branch", .fStr e.scm.g_scm_branch⟩,
       ⟨.app, "Git_Revision", .fStr e.scm.g_scm_rev⟩,
       ⟨.app, "BuildDate", .fStr e.scm.g_build_date⟩,
       ⟨.app, "BuildName", .fStr e.scm.g_build_name⟩,
       ⟨.userSystem, "CPU_Model", .fStr e.caps.cpu_string⟩,
       ⟨.userSystem, "CPU_BrandString", .fStr e.caps.brand_string⟩,
       ⟨.userSystem, "CPU_Vendor", .fStr (cpuVendorToStr e.caps.vendor)⟩,
       ⟨.userSystem, "CPU_Extension_x64_AES", .fBool e.caps.aes⟩,
       ⟨.userSystem, "CPU_Extension_x64_AVX", .fBool e.caps.avx⟩,
       ⟨.userSystem, "CPU_Extension_x64_AVX2", .fBool e.caps.avx2⟩,
       ⟨.userSystem, "CPU_Extension_x64_BMI1", .fBool e.caps.bmi1⟩,
       ⟨.userSystem, "CPU_Extension_x64_BMI2", .fBool e.caps.bmi2⟩,
       ⟨.userSystem, "CPU_Extension_x64_FMA", .fBool e.caps.fma⟩,
       ⟨.userSystem, "CPU_Extension_x64_FMA4", .fBool e.caps.fma4⟩,
       ⟨.userSystem, "CPU_Extension_x64_SSE", .fBool e.caps.sse⟩,
       ⟨.userSystem, "CPU_Extension_x64_SSE2", .fBool e.caps.sse2⟩,
       ⟨.userSystem, "CPU_Extension_x64_SSE3", .fBool e.caps.sse3⟩,
       ⟨.userSystem, "CPU_Extension_x64_SSSE3", .fBool e.caps.ssse3⟩,
       ⟨.userSystem, "CPU_Extension_x64_SSE41", .fBool e.caps.sse4_1⟩,
       ⟨.userSystem, "CPU_Extension_x64_SSE42", .fBool e.caps.sse4_2⟩,
       ⟨.userSystem, "OsPlatform", .fStr (osPlatformStr e.platform)⟩,
       ⟨.userConfig, "Core_CpuCore", .fInt e.settings.cpu_core⟩,
       ⟨.userConfig, "Renderer_ResolutionFactor", .fFloat e.settings.resolution_factor⟩,
       ⟨.userConfig, "Renderer_ToggleFramelimit", .fBool e.settings.toggle_framelimit⟩] }

/-- `TelemetrySession::~TelemetrySession` (telemetry_session.cpp:157-170):
append `Shutdown_Time`, then hand the collection to the backend and
complete it; only the final field list is observable here. -/
def destructSession (e : SessionEnv) (s : TelemetrySession) : List Field :=
  s.field_collection ++ [⟨.session, "Shutdown_Time", .fInt e.shutdownTime⟩]

/-- The field collection produced by construction followed immediately
by teardown. -/
def sessionLifetimeFields (e : SessionEnv) (fs₀ : FileState) : List Field :=
  destructSession e (constructSession e fs₀)

/-- Fields in `fields` with the given category and name, in order. -/
def fieldsNamed (fields : List Field) (t : FieldType) (n : String) : List Field :=
  fields.filter fun f => f.type == t && f.name == n

/-- Number of fields with the given category and name. -/
def countFields (fields : List Field) (t : FieldType) (n : String) : Nat :=
  (fieldsNamed fields t n).length

/-- Values of the fields with the given category and name, in order. -/
def fieldValuesOf (fields : List Field) (t : FieldType) (n : String) : List FieldValue :=
  (fieldsNamed fields t n).map fun f => f.value

/-- Number of fields with the given name, in any category. -/
def countFieldsByName (fields : List Field) (n : String) : Nat :=
  (fields.filter fun f => f.name == n).length

/-- Observable outcome of a login-verification call: the callback's
state after the operation, how many times the callback ran, how many
network contacts occurred, and the boolean the future resolves to. -/
structure VerifyOutcome (σ : Type) where
  state : σ
  callbackInvocations : Nat
  networkContacts : Nat
  verified : Bool

/-- `VerifyLogin` when no `ENABLE_WEB_SERVICE` capability is compiled in
(telemetry_session.cpp:74-79): the async body runs `func()` once and
returns `false`. The callback's side effects are threaded through `σ`;
the counters instrument the body — one increment per `func()` call in
it (exactly one) and one per network contact (none occur). -/
def verifyLoginNoWebService {σ : Type} (_username _token : String)
    (func : σ → σ) (s : σ) : VerifyOutcome σ :=
  { state := func s
    callbackInvocations := 1
    networkContacts := 0
    verified := false }

theorem leadsChars_iff (nd : List Char) :
    ∀ hay, leadsChars nd hay = true ↔ ∃ r, hay = nd ++ r := by
  induction nd with
  | nil => intro hay; simp [leadsChars]
  | cons a as ih =>
    intro hay
    cases hay with
    | nil => simp [leadsChars]
    | cons b bs =>
      simp only [leadsChars, Bool.and_eq_true, beq_iff_eq, ih bs, List.cons_append,
        List.cons.injEq]
      constructor
      · rintro ⟨rfl, r, rfl⟩; exact ⟨r, rfl, rfl⟩
      · rintro ⟨r, rfl, rfl⟩; exact ⟨rfl, r, rfl⟩

theorem hasSubChars_iff (nd : List Char) :
    ∀ hay, hasSubChars nd hay = true ↔ ∃ l r, hay = l ++ nd ++ r := by
  intro hay
  induction hay with
  | nil =>
    simp only [hasSubChars, leadsChars_iff]
    constructor
    · rintro ⟨r, h⟩; exact ⟨[], r, by simpa using h⟩
    · rintro ⟨l, r, h⟩
      obtain ⟨rfl, h₂, rfl⟩ : l = [] ∧ nd = [] ∧ r = [] := by simpa using h.symm
      exact ⟨[], by simp [h₂]⟩
  | cons c rest ih =>
    simp only [hasSubChars, Bool.or_eq_true, leadsChars_iff, ih]
    constructor
    · rintro (⟨r, h⟩ | ⟨l, r, rfl⟩)
      · exact ⟨[], r, by simpa using h⟩
      · exact ⟨c :: l, r, by simp⟩
    · rintro ⟨l, r, h⟩
      cases l with
      | nil => exact Or.inl ⟨r, by simpa using h⟩
      | cons x xs =>
        rcases List.cons.injEq .. ▸ h with ⟨-, h₂⟩
        exact Or.inr ⟨xs, r, by simpa using h₂⟩

theorem strstrFound_iff (hay needle : String) :
    strstrFound hay needle = true ↔ ∃ l r : List Char, hay.data = l ++ needle.data ++ r := by
  exact hasSubChars_iff needle.data hay.data

/-- Concrete CPU capabilities used to instantiate session environments. -/
def sampleCaps : CPUCaps :=
  ⟨"cpu model", "cpu brand", .intel, false, false, false, false, false, false, false,
    true, true, false, false, false, false⟩

/-- Concrete configuration with telemetry disabled but full web-service
credentials present. -/
def sampleSettings : SettingsValues :=
  ⟨false, "https://telemetry.example", "https://verify.example", "user", "token", 1, 0, true⟩

/-- Concrete build metadata whose description string contains "dirty". -/
def sampleScm : ScmRev :=
  ⟨"v1.0-3-gabc-dirty", "master", "abc123", "2017-08-01", "nightly"⟩

/-- Concrete session environment: web service compiled in, telemetry
disabled, loader query failing, identifier file I/O succeeding. -/
def sampleEnv : SessionEnv :=
  { webService := true
    settings := sampleSettings
    scm := sampleScm
    caps := sampleCaps
    platform := .linux
    loaderOk := false
    loaderName := ""
    initTime := 100
    shutdownTime := 250
    idEnv := ⟨true, true⟩ }

/-- Variant of the sample environment whose loader query succeeds. -/
def sampleEnvLoaderOk : SessionEnv :=
  { sampleEnv with loaderOk := true, loaderName := "Some Game" }

/-- C1: session construction followed immediately by teardown yields a
collection with at least one `None`-category `TelemetryId` field, at
least one `Session`-category `Init_Time` field, exactly one
`Session`-category `Shutdown_Time` field, and every `Init_Time` value
is at most every `Shutdown_Time` value (given that the wall clock read
at teardown is not before the one read at construction). -/
theorem session_lifecycle_fields (e : SessionEnv) (fs₀ : FileState)
    (hclock : e.initTime ≤ e.shutdownTime) :
    1 ≤ countFields (sessionLifetimeFields e fs₀) .none "TelemetryId" ∧
    1 ≤ countFields (sessionLifetimeFields e fs₀) .session "Init_Time" ∧
    countFields (sessionLifetimeFields e fs₀) .session "Shutdown_Time" = 1 ∧
    ∀ a b : Int,
      FieldValue.fInt a ∈ fieldValuesOf (sessionLifetimeFields e fs₀) .session "Init_Time" →
      FieldValue.fInt b ∈ fieldValuesOf (sessionLifetimeFields e fs₀) .session "Shutdown_Time" →
      a ≤ b := by
  refine ⟨?_, ?_, ?_, ?_⟩
  · cases h : e.loaderOk <;>
      simp [sessionLifetimeFields, destructSession, constructSession, countFields,
        fieldsNamed, List.filter_cons, List.filter_append, h]
  · cases h : e.loaderOk <;>
      simp [sessionLifetimeFields, destructSession, constructSession, countFields,
        fieldsNamed, List.filter_cons, List.filter_append, h]
  · cases h : e.loaderOk <;>
      simp [sessionLifetimeFields, destructSession, constructSession, countFields,
        fieldsNamed, List.filter_cons, List.filter_append, h]
  · intro a b ha hb
    cases h : e.loaderOk <;>
      simp [sessionLifetimeFields, destructSession, constructSession, fieldValuesOf,
        fieldsNamed, List.filter_cons, List.filter_append, h] at ha hb <;>
      simpa [ha, hb] using hclock

theorem session_lifecycle_fields_witness :
    1 ≤ countFields (sessionLifetimeFields sampleEnv ⟨Option.none⟩) .none "TelemetryId" ∧
    1 ≤ countFields (sessionLifetimeFields sampleEnv ⟨Option.none⟩) .session "Init_Time" ∧
    countFields (sessionLifetimeFields sampleEnv ⟨Option.none⟩) .session "Shutdown_Time" = 1 ∧
    ∀ a b : Int,
      FieldValue.fInt a ∈
        fieldValuesOf (sessionLifetimeFields sampleEnv ⟨Option.none⟩) .session "Init_Time" →
      FieldValue.fInt b ∈
        fieldValuesOf (sessionLifetimeFields sampleEnv ⟨Option.none⟩) .session "Shutdown_Time" →
      a ≤ b :=
  session_lifecycle_fields sampleEnv ⟨Option.none⟩ (by decide)

/-- C2: when the identifier file cannot be opened, `GetTelemetryId` and
`RegenerateTelemetryId` log the failure and return zero instead of
raising an error, and in both cases the on-disk content is unchanged. -/
theorem idStore_open_failure (env : IOEnv) (fs : FileState)
    (hr : env.openReadOk = false) (hw : env.openWriteOk = false) :
    ((getTelemetryId env fs).value = 0 ∧ (getTelemetryId env fs).loggedError = true ∧
      (getTelemetryId env fs).fs = fs) ∧
    ((regenerateTelemetryId env fs).value = 0 ∧
      (regenerateTelemetryId env fs).loggedError = true ∧
      (regenerateTelemetryId env fs).fs = fs) := by
  cases h : fs.telemetryFile <;>
    simp [getTelemetryId, regenerateTelemetryId, writeIdFile, hr, hw, h]

theorem idStore_open_failure_witness :
    ((getTelemetryId ⟨false, false⟩ ⟨some [7, 0, 0, 0, 0, 0, 0, 0]⟩).value = 0 ∧
      (getTelemetryId ⟨false, false⟩ ⟨some [7, 0, 0, 0, 0, 0, 0, 0]⟩).loggedError = true ∧
      (getTelemetryId ⟨false, false⟩ ⟨some [7, 0, 0, 0, 0, 0, 0, 0]⟩).fs
        = ⟨some [7, 0, 0, 0, 0, 0, 0, 0]⟩) ∧
    ((regenerateTelemetryId ⟨false, false⟩ ⟨some [7, 0, 0, 0, 0, 0, 0, 0]⟩).value = 0 ∧
      (regenerateTelemetryId ⟨false, false⟩ ⟨some [7, 0, 0, 0, 0, 0, 0, 0]⟩).loggedError = true ∧
      (regenerateTelemetryId ⟨false, false⟩ ⟨some [7, 0, 0, 0, 0, 0, 0, 0]⟩).fs
        = ⟨some [7, 0, 0, 0, 0, 0, 0, 0]⟩) :=
  idStore_open_failure ⟨false, false⟩ ⟨some [7, 0, 0, 0, 0, 0, 0, 0]⟩ rfl rfl

/-- C3: identifier persistence round-trip — a successful write of any
64-bit value `X` through the store's write path (the path
`RegenerateTelemetryId` commits through) returns `X`, and a subsequent
successful `GetTelemetryId` on the resulting file reads back exactly
`X`; in particular a successful `RegenerateTelemetryId` is read back
unchanged. -/
theorem id_write_read_roundtrip (X : Nat) (envW envR : IOEnv) (fs : FileState)
    (hX : X < 2 ^ 64) (hw : envW.openWriteOk = true) (hr : envR.openReadOk = true) :
    ((writeIdFile X envW fs).value = X ∧
      (getTelemetryId envR (writeIdFile X envW fs).fs).value = X) ∧
    (getTelemetryId envR (regenerateTelemetryId envW fs).fs).value
      = (regenerateTelemetryId envW fs).value := by
  have hlen : ∀ y : Nat, (u64ToBytes y).length ≤ 8 := by
    intro y; rw [u64ToBytes, length_natToBytesLE]
  have h0 : (generateTelemetryId : Nat) < 2 ^ 64 := by norm_num [generateTelemetryId]
  refine ⟨⟨?_, ?_⟩, ?_⟩ <;>
    simp [writeIdFile, getTelemetryId, regenerateTelemetryId, hw, hr,
      List.take_of_length_le (hlen _), bytesToU64_u64ToBytes X hX,
      bytesToU64_u64ToBytes _ h0]

theorem id_write_read_roundtrip_witness :
    ((writeIdFile 81985529216486895 ⟨false, true⟩ ⟨Option.none⟩).value = 81985529216486895 ∧
      (getTelemetryId ⟨true, false⟩
        (writeIdFile 81985529216486895 ⟨false, true⟩ ⟨Option.none⟩).fs).value
        = 81985529216486895) ∧
    (getTelemetryId ⟨true, false⟩
      (regenerateTelemetryId ⟨false, true⟩ ⟨Option.none⟩).fs).value
      = (regenerateTelemetryId ⟨false, true⟩ ⟨Option.none⟩).value :=
  id_write_read_roundtrip 81985529216486895 ⟨false, true⟩ ⟨true, false⟩ ⟨Option.none⟩
    (by norm_num) rfl rfl

/-- C4: with the identifier file absent, a successful `GetTelemetryId`
returns the freshly generated value and persists exactly that value to
the file, and a subsequent successful `GetTelemetryId` returns the same
value and leaves the file unchanged. -/
theorem getTelemetryId_create_idempotent (env₁ env₂ : IOEnv) (fs : FileState)
    (habs : fs.telemetryFile = Option.none)
    (hw : env₁.openWriteOk = true) (hr : env₂.openReadOk = true) :
    (getTelemetryId env₁ fs).value = generateTelemetryId ∧
    (getTelemetryId env₁ fs).fs.telemetryFile
      = some (u64ToBytes (getTelemetryId env₁ fs).value) ∧
    (getTelemetryId env₂ (getTelemetryId env₁ fs).fs).value = (getTelemetryId env₁ fs).value ∧
    (getTelemetryId env₂ (getTelemetryId env₁ fs).fs).fs = (getTelemetryId env₁ fs).fs := by
  have h0 : bytesToU64 ((u64ToBytes generateTelemetryId).take 8) = generateTelemetryId := by
    decide
  simp [getTelemetryId, writeIdFile, habs, hw, hr, h0]

theorem getTelemetryId_create_idempotent_witness :
    (getTelemetryId ⟨false, true⟩ ⟨Option.none⟩).value = generateTelemetryId ∧
    (getTelemetryId ⟨false, true⟩ ⟨Option.none⟩).fs.telemetryFile
      = some (u64ToBytes (getTelemetryId ⟨false, true⟩ ⟨Option.none⟩).value) ∧
    (getTelemetryId ⟨true, false⟩ (getTelemetryId ⟨false, true⟩ ⟨Option.none⟩).fs).value
      = (getTelemetryId ⟨false, true⟩ ⟨Option.none⟩).value ∧
    (getTelemetryId ⟨true, false⟩ (getTelemetryId ⟨false, true⟩ ⟨Option.none⟩).fs).fs
      = (getTelemetryId ⟨false, true⟩ ⟨Option.none⟩).fs :=
  getTelemetryId_create_idempotent ⟨false, true⟩ ⟨true, false⟩ ⟨Option.none⟩ rfl rfl rfl

/-- C5: whenever telemetry is disabled in the configuration — or no
web-service capability is compiled in — the backend selected at session
construction is the null (discard) visitor, regardless of every other
configuration value. -/
theorem backend_null_when_disabled (e : SessionEnv) (fs₀ : FileState)
    (h : e.settings.enable_telemetry = false ∨ e.webService = false) :
    (constructSession e fs₀).backend = Backend.nullVisitor := by
  rcases h with h | h <;> simp [constructSession, selectBackend, h]

theorem backend_null_when_disabled_witness :
    (constructSession sampleEnv ⟨Option.none⟩).backend = Backend.nullVisitor :=
  backend_null_when_disabled sampleEnv ⟨Option.none⟩ (Or.inl rfl)

/-- C6: when the loader's program-name query fails, the constructed
collection contains no field named `ProgramName` in any category; when
it succeeds, it contains exactly one `Session`-category `ProgramName`
field. Construction is a total function either way — no error reaches
the caller. -/
theorem programName_iff_loader (e : SessionEnv) (fs₀ : FileState) :
    (e.loaderOk = false →
      countFieldsByName (constructSession e fs₀).field_collection "ProgramName" = 0) ∧
    (e.loaderOk = true →
      countFields (constructSession e fs₀).field_collection .session "ProgramName" = 1) := by
  constructor <;> intro h <;>
    simp [constructSession, countFieldsByName, countFields, fieldsNamed,
      List.filter_cons, List.filter_append, h]

theorem programName_iff_loader_witness :
    countFieldsByName (constructSession sampleEnv ⟨Option.none⟩).field_collection
      "ProgramName" = 0 ∧
    countFields (constructSession sampleEnvLoaderOk ⟨Option.none⟩).field_collection
      .session "ProgramName" = 1 :=
  ⟨(programName_iff_loader sampleEnv ⟨Option.none⟩).1 rfl,
    (programName_iff_loader sampleEnvLoaderOk ⟨Option.none⟩).2 rfl⟩

/-- C7: with no web-service capability compiled in, `VerifyLogin` runs
the supplied callback exactly once, contacts no network, resolves the
returned future to `false` ("not verified"), and the callback's effect
is exactly one application of the supplied function. -/
theorem verifyLogin_no_web_service {σ : Type} (u t : String) (f : σ → σ) (s : σ) :
    (verifyLoginNoWebService u t f s).callbackInvocations = 1 ∧
    (verifyLoginNoWebService u t f s).networkContacts = 0 ∧
    (verifyLoginNoWebService u t f s).verified = false ∧
    (verifyLoginNoWebService u t f s).state = f s :=
  ⟨rfl, rfl, rfl, rfl⟩

/-- C8: the placeholder generator always returns zero, so the first
identifier persisted by `GetTelemetryId` (absent-file branch) or by
`RegenerateTelemetryId` is always the 8-byte encoding of zero, and both
calls return zero. -/
theorem generateTelemetryId_zero_persisted :
    generateTelemetryId = 0 ∧
    (∀ env fs, env.openWriteOk = true → fs.telemetryFile = Option.none →
      (getTelemetryId env fs).value = 0 ∧
      (getTelemetryId env fs).fs.telemetryFile = some (u64ToBytes 0)) ∧
    (∀ env fs, env.openWriteOk = true →
      (regenerateTelemetryId env fs).value = 0 ∧
      (regenerateTelemetryId env fs).fs.telemetryFile = some (u64ToBytes 0)) := by
  refine ⟨rfl, ?_, ?_⟩ <;> intro env fs hw <;>
    first
    | (intro habs;
        simp [getTelemetryId, writeIdFile, generateTelemetryId, habs, hw])
    | simp [regenerateTelemetryId, writeIdFile, generateTelemetryId, hw]

theorem generateTelemetryId_zero_persisted_witness :
    (getTelemetryId ⟨false, true⟩ ⟨Option.none⟩).value = 0 ∧
    (getTelemetryId ⟨false, true⟩ ⟨Option.none⟩).fs.telemetryFile = some (u64ToBytes 0) :=
  generateTelemetryId_zero_persisted.2.1 ⟨false, true⟩ ⟨Option.none⟩ rfl rfl

/-- C9: every constructed collection contains exactly one
`UserSystem`-category `OsPlatform` field; its string value is
determined solely by the compilation platform and is one of "Apple",
"Windows", "Linux", "Unknown". -/
theorem osPlatform_field_unique (e : SessionEnv) (fs₀ : FileState) :
    countFields (constructSession e fs₀).field_collection .userSystem "OsPlatform" = 1 ∧
    fieldValuesOf (constructSession e fs₀).field_collection .userSystem "OsPlatform"
      = [.fStr (osPlatformStr e.platform)] ∧
    (osPlatformStr e.platform = "Apple" ∨ osPlatformStr e.platform = "Windows" ∨
      osPlatformStr e.platform = "Linux" ∨ osPlatformStr e.platform = "Unknown") := by
  refine ⟨?_, ?_, ?_⟩
  · cases h : e.loaderOk <;>
      simp [constructSession, countFields, fieldsNamed, List.filter_cons,
        List.filter_append, h]
  · cases h : e.loaderOk <;>
      simp [constructSession, fieldValuesOf, fieldsNamed, List.filter_cons,
        List.filter_append, h]
  · cases e.platform <;> simp [osPlatformStr]

/-- C10: the `App`-category `Git_IsDirty` boolean is exactly the result
of the `strstr` scan of the build's source-control description string
for "dirty": it is `true` iff that string contains the substring
"dirty"; no collaborator-supplied dirty flag is consulted. -/
theorem gitIsDirty_iff_desc_contains_dirty (e : SessionEnv) (fs₀ : FileState) :
    fieldValuesOf (constructSession e fs₀).field_collection .app "Git_IsDirty"
      = [.fBool (strstrFound e.scm.g_scm_desc "dirty")] ∧
    (strstrFound e.scm.g_scm_desc "dirty" = true ↔
      ∃ l r : List Char, e.scm.g_scm_desc.data = l ++ "dirty".data ++ r) := by
  refine ⟨?_, strstrFound_iff _ _⟩
  cases h : e.loaderOk <;>
    simp [constructSession, fieldValuesOf, fieldsNamed, List.filter_cons,
      List.filter_append, h]

end Telemetry
